import Mathlib

/-!
# Verification of the artifact-resolution core (`buck2_build_api::artifact_groups`)

Shallow embedding of `src/app/buck2_build_api/src/artifact_groups/mod.rs`:
the `ArtifactGroup` descriptor enum, its `assert_resolved`, `resolved` and
`resolved_artifact` operations, and the `ResolvedArtifactGroup` result type.

Components of the repository that are referenced by `mod.rs` but whose code
is not part of the provided sources (the `PromiseArtifact` memoization cell
from `promise.rs`, the incremental computation engine `DiceComputations`, and
the helper `get_artifact_from_anon_target_analysis`) are modelled from the
specification, as marked in their doc comments.

Rust's interior mutability (the promise cell can be written through a shared
reference, and the engine memoizes internally) is embedded by threading two
explicit pieces of state through the operations: a `PromiseRegistry` mapping
anonymous-target keys to resolved artifact handles, and the engine's memo
table. `resolved_artifact` additionally reports how many *underlying*
anonymous-target analyses it actually executed (cache hits count zero), so
that "no engine interaction" and "at most one analysis" become statable.
-/

/-- An opaque, hashable identity for a single concrete build output
(`buck2_artifact::artifact::artifact_type::Artifact`). Equality is by
identity. -/
@[ext]
structure Artifact where
  id : Nat
deriving DecidableEq, Repr

/-- Duplicating the lightweight handle (`Artifact: Clone + Dupe`). -/
def Artifact.clone (a : Artifact) : Artifact := ⟨a.id⟩

/-- Identity of a transitive-set node (`deferred::TransitiveSetKey`),
opaque to this module. -/
@[ext]
structure TransitiveSetKey where
  id : Nat
deriving DecidableEq, Repr

/-- Composite key (owning node key, projection index) —
`TransitiveSetProjectionKey` in `mod.rs`. -/
@[ext]
structure TransitiveSetProjectionKey where
  key : TransitiveSetKey
  projection : Nat
deriving DecidableEq, Repr

/-- Cloning a projection key duplicates node key and index. -/
def TransitiveSetProjectionKey.clone (k : TransitiveSetProjectionKey) :
    TransitiveSetProjectionKey :=
  ⟨⟨k.key.id⟩, k.projection⟩

/-- A promise artifact (`promise::PromiseArtifact`): identified by the key of
the anonymous target whose analysis produces it. The memoization cell itself
lives in the registry state, looked up by this identity. -/
@[ext]
structure PromiseArtifact where
  id : Nat
deriving DecidableEq, Repr

/-- Cloning a promise artifact duplicates the identity reference. -/
def PromiseArtifact.clone (p : PromiseArtifact) : PromiseArtifact := ⟨p.id⟩

/-- Modelled from the spec (`promise.rs` is not among the provided sources):
the Promise Artifact Registry's memoization cells. A pair `(k, a)` means the
cell of the promise owned by anonymous target `k` is resolved to handle `a`;
an absent key means the cell is unresolved. -/
def PromiseRegistry : Type := List (Nat × Artifact)

/-- Error taxonomy of the resolution core (spec §7). -/
inductive ResolveError where
  /-- Unresolved-promise-synchronous-access: the non-suspending peek was
  used before resolution completed. -/
  | promiseNotYetAvailable (id : Nat)
  /-- The anonymous target's analysis itself failed. -/
  | analysisFailure (id : Nat)
  /-- Analysis succeeded but did not declare the expected output. -/
  | missingExpectedOutput (id : Nat)
deriving DecidableEq, Repr

/-- Modelled from the spec (`promise.rs` is not among the provided sources):
`PromiseArtifact::get`, the non-suspending peek — the cached handle if the
cell is resolved, nothing otherwise. -/
def PromiseArtifact.get (p : PromiseArtifact) (reg : PromiseRegistry) :
    Option Artifact :=
  List.lookup p.id reg

/-- Modelled from the spec (`promise.rs` is not among the provided sources):
`PromiseArtifact::get_err`, the peek-or-fail variant used by the synchronous
path — fails with the "not yet available" condition when unresolved. -/
def PromiseArtifact.get_err (p : PromiseArtifact) (reg : PromiseRegistry) :
    Except ResolveError Artifact :=
  match p.get reg with
  | some a => .ok a
  | none => .error (.promiseNotYetAvailable p.id)

/-- Modelled from the spec (the engine is an external collaborator, §6):
the incremental computation engine handle (`dice::DiceComputations`).
`analyze` is the underlying anonymous-target analysis computation, keyed by
target key; `cache` is the engine's memo table, which deduplicates repeated
evaluation requests for an equal key. -/
structure DiceComputations where
  analyze : Nat → Except ResolveError Artifact
  cache : List (Nat × Except ResolveError Artifact)

/-- Modelled from the spec (§6): memoized evaluation. Returns the value, the
engine state afterwards, and the number of underlying analysis computations
actually executed (0 on a cache hit, 1 on a miss). -/
def DiceComputations.evaluate (ctx : DiceComputations) (k : Nat) :
    Except ResolveError Artifact × DiceComputations × Nat :=
  match List.lookup k ctx.cache with
  | some v => (v, ctx, 0)
  | none => (ctx.analyze k, ⟨ctx.analyze, (k, ctx.analyze k) :: ctx.cache⟩, 1)

/-- The normalized output of resolution (`ResolvedArtifactGroup` in
`mod.rs`): a concrete handle, or a projection reference for a later engine
lookup. The Rust lifetime-carrying reference in the second variant is
embedded by value. -/
inductive ResolvedArtifactGroup where
  | Artifact (a : Artifact)
  | TransitiveSetProjection (k : TransitiveSetProjectionKey)
deriving DecidableEq, Repr

/-- The tagged descriptor (`ArtifactGroup` in `mod.rs`): a closed union of
exactly three variants. -/
inductive ArtifactGroup where
  | Artifact (a : Artifact)
  | TransitiveSetProjection (k : TransitiveSetProjectionKey)
  | Promise (p : PromiseArtifact)
deriving DecidableEq, Repr

/-- The derived structural `Clone` of the descriptor: duplicates the tag and
the lightweight payload handle/key. -/
def ArtifactGroup.clone : ArtifactGroup → ArtifactGroup
  | .Artifact a => .Artifact a.clone
  | .TransitiveSetProjection k => .TransitiveSetProjection k.clone
  | .Promise p => .Promise p.clone

/-- The derived structural `PartialEq` of the descriptor: same variant tag
and equal payloads. -/
def ArtifactGroup.eqStruct : ArtifactGroup → ArtifactGroup → Bool
  | .Artifact a, .Artifact b => a.id == b.id
  | .TransitiveSetProjection k, .TransitiveSetProjection l =>
      k.key.id == l.key.id && k.projection == l.projection
  | .Promise p, .Promise q => p.id == q.id
  | _, _ => false

/-- The derived structural `Hash` of the descriptor: mixes the variant tag
with the payload's hash (payload hashes are themselves structural over their
fields). `Nat.pair` plays the role of the hasher's mixing function. -/
def ArtifactGroup.hashOf : ArtifactGroup → Nat
  | .Artifact a => Nat.pair 0 a.id
  | .TransitiveSetProjection k => Nat.pair 1 (Nat.pair k.key.id k.projection)
  | .Promise p => Nat.pair 2 p.id

/-- `ArtifactGroup::resolved` (`mod.rs` lines 58–66): the best-effort
synchronous path. `Artifact` and `TransitiveSetProjection` pass through;
`Promise` is peeked with `get_err`, propagating its failure via `?`. The
registry is returned alongside to make the frame condition (no cell is
written through the shared reference) statable. -/
def ArtifactGroup.resolved (g : ArtifactGroup) (reg : PromiseRegistry) :
    Except ResolveError ResolvedArtifactGroup × PromiseRegistry :=
  match g with
  | .Artifact a => (.ok (.Artifact a.clone), reg)
  | .TransitiveSetProjection k => (.ok (.TransitiveSetProjection k), reg)
  | .Promise p =>
      match p.get_err reg with
      | .ok a => (.ok (.Artifact a.clone), reg)
      | .error e => (.error e, reg)

/-- `ArtifactGroup::assert_resolved` (`mod.rs` lines 53–55):
`self.resolved().unwrap()`. The `unwrap` panic is embedded as `none`. -/
def ArtifactGroup.assert_resolved (g : ArtifactGroup) (reg : PromiseRegistry) :
    Option ResolvedArtifactGroup :=
  (g.resolved reg).1.toOption

/-- Modelled from the spec (`get_artifact_from_anon_target_analysis` lives in
`interpreter::rule_defs::context`, not among the provided sources): triggers
analysis of the owning anonymous target through the engine, extracts the
resulting artifact handle, stores it in the promise's cell, and returns it;
an analysis error is propagated unchanged and the cell is left unresolved. -/
def get_artifact_from_anon_target_analysis (p : PromiseArtifact)
    (ctx : DiceComputations) (reg : PromiseRegistry) :
    Except ResolveError Artifact × DiceComputations × PromiseRegistry × Nat :=
  match ctx.evaluate p.id with
  | (.ok a, ctx2, n) => (.ok a, ctx2, (p.id, a) :: reg, n)
  | (.error e, ctx2, n) => (.error e, ctx2, reg, n)

/-- `ArtifactGroup::resolved_artifact` (`mod.rs` lines 74–91): the
asynchronous, always-correct path. `Artifact` and `TransitiveSetProjection`
pass through with no engine interaction; `Promise` returns the cached handle
when `get` succeeds, and otherwise drives anonymous-target analysis through
the engine. The final `Nat` counts underlying analyses actually executed. -/
def ArtifactGroup.resolved_artifact (g : ArtifactGroup)
    (ctx : DiceComputations) (reg : PromiseRegistry) :
    Except ResolveError ResolvedArtifactGroup × DiceComputations ×
      PromiseRegistry × Nat :=
  match g with
  | .Artifact a => (.ok (.Artifact a.clone), ctx, reg, 0)
  | .TransitiveSetProjection k => (.ok (.TransitiveSetProjection k), ctx, reg, 0)
  | .Promise p =>
      match p.get reg with
      | some a => (.ok (.Artifact a.clone), ctx, reg, 0)
      | none =>
          match get_artifact_from_anon_target_analysis p ctx reg with
          | (.ok a, ctx2, reg2, n) => (.ok (.Artifact a), ctx2, reg2, n)
          | (.error e, ctx2, reg2, n) => (.error e, ctx2, reg2, n)

/-- Two back-to-back resolutions of the same descriptor against the same
engine — the linearization, per the engine's single-flight deduplication
guarantee (spec §5/§6), of two callers racing on the same descriptor value.
Returns the two observed results and the total number of underlying
anonymous-target analyses executed. -/
def ArtifactGroup.resolved_artifact_twice (g : ArtifactGroup)
    (ctx : DiceComputations) (reg : PromiseRegistry) :
    (Except ResolveError ResolvedArtifactGroup ×
      Except ResolveError ResolvedArtifactGroup) × Nat :=
  match g.resolved_artifact ctx reg with
  | (r1, ctx2, reg2, n1) =>
      match g.resolved_artifact ctx2 reg2 with
      | (r2, _, _, n2) => ((r1, r2), n1 + n2)

/-! ## Theorems -/

/-- C1: for every descriptor of the `Artifact` variant, `resolved_artifact`
returns the wrapped handle unchanged, leaves the engine and registry
untouched, and executes no analysis, on every invocation. -/
theorem artifact_variant_pass_through (a : Artifact) (ctx : DiceComputations)
    (reg : PromiseRegistry) :
    (ArtifactGroup.Artifact a).resolved_artifact ctx reg =
      (.ok (.Artifact a), ctx, reg, 0) :=
  rfl

/-- C2: for every descriptor of the `TransitiveSetProjection` variant, both
`resolved` and `resolved_artifact` return the (node key, projection index)
pair unchanged as a projection reference, with no engine interaction and no
expansion of the underlying transitive set. -/
theorem tset_projection_pass_through (k : TransitiveSetProjectionKey)
    (ctx : DiceComputations) (reg : PromiseRegistry) :
    (ArtifactGroup.TransitiveSetProjection k).resolved reg =
      (.ok (.TransitiveSetProjection k), reg) ∧
    (ArtifactGroup.TransitiveSetProjection k).resolved_artifact ctx reg =
      (.ok (.TransitiveSetProjection k), ctx, reg, 0) :=
  ⟨rfl, rfl⟩

/-- C7: descriptor equality is structural over the variant tag and payload,
cloning yields an equal descriptor, and equal descriptors (in particular a
clone and its original) have the same structural hash. -/
theorem descriptor_structural_eq_hash_clone :
    (∀ g h : ArtifactGroup, g = h ↔ g.eqStruct h = true) ∧
    (∀ g : ArtifactGroup, g.clone = g) ∧
    (∀ g : ArtifactGroup, g.clone.hashOf = g.hashOf) := by
  refine ⟨?_, ?_, ?_⟩
  · intro g h
    cases g <;> cases h <;>
      simp [ArtifactGroup.eqStruct, Artifact.ext_iff,
        TransitiveSetProjectionKey.ext_iff, TransitiveSetKey.ext_iff,
        PromiseArtifact.ext_iff, and_comm]
  · intro g
    cases g <;> rfl
  · intro g
    cases g <;> rfl

/-- C3: a successful resolution result is one of exactly two forms — a
concrete artifact handle or a transitive-set-projection reference — and a
`Promise` descriptor, once `resolved_artifact` completes successfully, always
yields a concrete artifact handle, never a value still in promise form. -/
theorem resolution_two_forms :
    (∀ (g : ArtifactGroup) (ctx : DiceComputations) (reg : PromiseRegistry)
        (r : ResolvedArtifactGroup), (g.resolved_artifact ctx reg).1 = .ok r →
        (∃ a, r = .Artifact a) ∨ (∃ k, r = .TransitiveSetProjection k)) ∧
    (∀ (p : PromiseArtifact) (ctx : DiceComputations) (reg : PromiseRegistry)
        (r : ResolvedArtifactGroup),
        ((ArtifactGroup.Promise p).resolved_artifact ctx reg).1 = .ok r →
        ∃ a, r = .Artifact a) := by
  constructor
  · intro g ctx reg r _
    cases r with
    | Artifact a => exact Or.inl ⟨a, rfl⟩
    | TransitiveSetProjection k => exact Or.inr ⟨k, rfl⟩
  · intro p ctx reg r h
    simp only [ArtifactGroup.resolved_artifact] at h
    split at h
    · next a _ =>
      simp only at h
      exact ⟨a.clone, (Except.ok.injEq _ _ ▸ h).symm⟩
    · split at h
      · next a _ _ _ _ =>
        simp only at h
        exact ⟨a, (Except.ok.injEq _ _ ▸ h).symm⟩
      · simp only at h
        exact absurd h (by simp)

/-- C3 witness: a concrete promise resolution whose successful result is in
artifact-handle form. -/
theorem resolution_two_forms_witness :
    ∃ a, ResolvedArtifactGroup.Artifact ⟨5⟩ = .Artifact a :=
  resolution_two_forms.2 ⟨7⟩ ⟨fun _ => .ok ⟨5⟩, []⟩ [] (.Artifact ⟨5⟩) rfl

/-- C4: for every `Promise` descriptor, the synchronous path `resolved`
returns the cached artifact handle exactly when the promise's cell is already
resolved, and otherwise fails with the "not yet available" error; moreover
`Promise` is the only variant for which `resolved` can fail. -/
theorem promise_sync_peek_or_fail :
    (∀ (p : PromiseArtifact) (reg : PromiseRegistry),
      ((ArtifactGroup.Promise p).resolved reg).1 =
        match p.get reg with
        | some a => .ok (.Artifact a)
        | none => .error (.promiseNotYetAvailable p.id)) ∧
    (∀ (g : ArtifactGroup) (reg : PromiseRegistry) (e : ResolveError),
      (g.resolved reg).1 = .error e →
      ∃ p, g = .Promise p ∧ p.get reg = none ∧
        e = .promiseNotYetAvailable p.id) := by
  constructor
  · intro p reg
    simp only [ArtifactGroup.resolved, PromiseArtifact.get_err]
    cases p.get reg <;> rfl
  · intro g reg e h
    cases g with
    | Artifact a => exact absurd h (by simp [ArtifactGroup.resolved])
    | TransitiveSetProjection k =>
        exact absurd h (by simp [ArtifactGroup.resolved])
    | Promise p =>
        refine ⟨p, rfl, ?_⟩
        simp only [ArtifactGroup.resolved, PromiseArtifact.get_err] at h
        cases hg : p.get reg with
        | some a => rw [hg] at h; exact absurd h (by simp)
        | none =>
            rw [hg] at h
            simp only at h
            exact ⟨rfl, (Except.error.injEq _ _ ▸ h).symm⟩

/-- C4 witness: a concrete unresolved promise for which the synchronous peek
fails with the "not yet available" condition. -/
theorem promise_sync_peek_or_fail_witness :
    ∃ p, ArtifactGroup.Promise ⟨3⟩ = .Promise p ∧
      PromiseArtifact.get p [] = none ∧
      ResolveError.promiseNotYetAvailable 3 = .promiseNotYetAvailable p.id :=
  promise_sync_peek_or_fail.2 (.Promise ⟨3⟩) []
    (.promiseNotYetAvailable 3) rfl

/-- C8: under the caller-guaranteed precondition that the descriptor is not a
`Promise`, or is a `Promise` whose cell is already resolved,
`assert_resolved` returns the same resolved form as `resolved` and its panic
branch (the `unwrap` of the `resolved` result) is unreachable. -/
theorem assert_resolved_total_on_resolved (g : ArtifactGroup)
    (reg : PromiseRegistry)
    (h : ∀ p, g = .Promise p → ∃ a, p.get reg = some a) :
    ∃ r, g.assert_resolved reg = some r ∧ (g.resolved reg).1 = .ok r := by
  cases g with
  | Artifact a => exact ⟨.Artifact a.clone, rfl, rfl⟩
  | TransitiveSetProjection k => exact ⟨.TransitiveSetProjection k, rfl, rfl⟩
  | Promise p =>
      obtain ⟨a, ha⟩ := h p rfl
      refine ⟨.Artifact a.clone, ?_, ?_⟩ <;>
        simp [ArtifactGroup.assert_resolved, ArtifactGroup.resolved,
          PromiseArtifact.get_err, ha, Except.toOption]

/-- C8 witness: a concrete promise whose cell is resolved, on which
`assert_resolved` does not panic. -/
theorem assert_resolved_total_on_resolved_witness :
    ∃ r, (ArtifactGroup.Promise ⟨3⟩).assert_resolved [(3, ⟨9⟩)] = some r ∧
      ((ArtifactGroup.Promise ⟨3⟩).resolved [(3, ⟨9⟩)]).1 = .ok r :=
  assert_resolved_total_on_resolved (.Promise ⟨3⟩) [(3, ⟨9⟩)]
    (fun p hp => ⟨⟨9⟩, by cases hp; rfl⟩)

/-- C9: the synchronous path `resolved` performs no direct mutation — the
registry it returns is the one it was given (in particular a failed peek on
an unresolved promise leaves the cell in its prior state), so the suspending
path on the post-peek registry behaves exactly as on the original one. -/
theorem resolved_no_mutation (g : ArtifactGroup) (reg : PromiseRegistry) :
    (g.resolved reg).2 = reg ∧
    (∀ (p : PromiseArtifact) (ctx : DiceComputations),
      ((ArtifactGroup.Promise p).resolved reg).1.isOk = false →
      (ArtifactGroup.Promise p).resolved_artifact ctx
          ((ArtifactGroup.Promise p).resolved reg).2 =
        (ArtifactGroup.Promise p).resolved_artifact ctx reg) := by
  constructor
  · cases g with
    | Artifact a => rfl
    | TransitiveSetProjection k => rfl
    | Promise p =>
        simp only [ArtifactGroup.resolved]
        cases p.get_err reg <;> rfl
  · intro p ctx _
    have h2 : ((ArtifactGroup.Promise p).resolved reg).2 = reg := by
      simp only [ArtifactGroup.resolved]
      cases p.get_err reg <;> rfl
    rw [h2]

/-- C9 witness: a failed peek on a concrete unresolved promise leaves the
registry unchanged and the suspending path unaffected. -/
theorem resolved_no_mutation_witness :
    ((ArtifactGroup.Promise ⟨3⟩).resolved []).2 = [] ∧
    (ArtifactGroup.Promise ⟨3⟩).resolved_artifact
        ⟨fun _ => Except.error (.analysisFailure 3), []⟩
        ((ArtifactGroup.Promise ⟨3⟩).resolved []).2 =
      (ArtifactGroup.Promise ⟨3⟩).resolved_artifact
        ⟨fun _ => Except.error (.analysisFailure 3), []⟩ [] :=
  ⟨(resolved_no_mutation (.Promise ⟨3⟩) []).1,
    (resolved_no_mutation (.Promise ⟨3⟩) []).2 ⟨3⟩
      ⟨fun _ => Except.error (.analysisFailure 3), []⟩ rfl⟩

/-- C5: for a `Promise` descriptor whose cell is unresolved,
`resolved_artifact` drives anonymous-target analysis through the engine and
returns the engine's outcome as a typed result — a success is stored in the
cell and returned, an analysis error is propagated verbatim, neither
swallowed nor retried; if the cell is already resolved, the cached handle is
returned with no engine interaction. -/
theorem promise_async_resolution :
    (∀ (p : PromiseArtifact) (ctx : DiceComputations) (reg : PromiseRegistry)
        (a : Artifact), p.get reg = some a →
      (ArtifactGroup.Promise p).resolved_artifact ctx reg =
        (.ok (.Artifact a), ctx, reg, 0)) ∧
    (∀ (p : PromiseArtifact) (ctx : DiceComputations) (reg : PromiseRegistry),
      p.get reg = none →
      (ArtifactGroup.Promise p).resolved_artifact ctx reg =
        match ctx.evaluate p.id with
        | (.ok a, ctx2, n) => (.ok (.Artifact a), ctx2, (p.id, a) :: reg, n)
        | (.error e, ctx2, n) => (.error e, ctx2, reg, n)) := by
  constructor
  · intro p ctx reg a ha
    simp only [ArtifactGroup.resolved_artifact]
    rw [ha]
    rfl
  · intro p ctx reg hn
    simp only [ArtifactGroup.resolved_artifact,
      get_artifact_from_anon_target_analysis]
    rw [hn]
    rcases hev : ctx.evaluate p.id with ⟨v, ctx2, n⟩
    cases v <;> simp

/-- C5 witness: a resolved cell is returned with no engine interaction, and
an unresolved cell is resolved through the engine (here the analysis fails
and the error is returned verbatim). -/
theorem promise_async_resolution_witness :
    (PromiseArtifact.get ⟨1⟩ [(1, ⟨4⟩)] = some ⟨4⟩ ∧
      (ArtifactGroup.Promise ⟨1⟩).resolved_artifact
          ⟨fun _ => Except.error (.analysisFailure 0), []⟩ [(1, ⟨4⟩)] =
        (.ok (.Artifact ⟨4⟩),
          ⟨fun _ => Except.error (.analysisFailure 0), []⟩, [(1, ⟨4⟩)], 0)) ∧
    (PromiseArtifact.get ⟨2⟩ [] = none ∧
      (ArtifactGroup.Promise ⟨2⟩).resolved_artifact
          ⟨fun _ => Except.error (.analysisFailure 2), []⟩ [] =
        match DiceComputations.evaluate
            ⟨fun _ => Except.error (.analysisFailure 2), []⟩ 2 with
        | (.ok a, ctx2, n) => (.ok (.Artifact a), ctx2, (2, a) :: [], n)
        | (.error e, ctx2, n) => (.error e, ctx2, [], n)) :=
  ⟨⟨rfl, promise_async_resolution.1 ⟨1⟩ _ _ ⟨4⟩ rfl⟩,
    ⟨rfl, promise_async_resolution.2 ⟨2⟩ _ _ rfl⟩⟩

/-- C6: resolving the same `Promise` descriptor twice against the same
engine — the linearization of two concurrent callers under the engine's
single-flight guarantee — executes the underlying anonymous-target analysis
at most once, and both callers observe an identical outcome (the same
handle, or the same error). -/
theorem promise_analysis_at_most_once (p : PromiseArtifact)
    (ctx : DiceComputations) (reg : PromiseRegistry) :
    ((ArtifactGroup.Promise p).resolved_artifact_twice ctx reg).1.1 =
      ((ArtifactGroup.Promise p).resolved_artifact_twice ctx reg).1.2 ∧
    ((ArtifactGroup.Promise p).resolved_artifact_twice ctx reg).2 ≤ 1 := by
  simp only [ArtifactGroup.resolved_artifact_twice,
    ArtifactGroup.resolved_artifact, get_artifact_from_anon_target_analysis,
    DiceComputations.evaluate, PromiseArtifact.get]
  cases hg : List.lookup p.id reg with
  | some a => simp [hg]
  | none =>
    cases hc : List.lookup p.id ctx.cache with
    | some v =>
      cases v with
      | ok a => simp [hg, hc, List.lookup, Artifact.clone]
      | error e => simp [hg, hc]
    | none =>
      cases ha : ctx.analyze p.id with
      | ok a => simp [hg, hc, ha, List.lookup, Artifact.clone]
      | error e => simp [hg, hc, ha, List.lookup]

/-- C10: on descriptors that are not promises, or are promises whose cell
already holds a resolved handle, the synchronous path `resolved` and the
asynchronous path `resolved_artifact` produce the same resolved artifact
group, with no engine interaction and no state change on either side — the
sync path refines the async path on the already-resolved domain. -/
theorem sync_refines_async (g : ArtifactGroup) (ctx : DiceComputations)
    (reg : PromiseRegistry)
    (h : ∀ p, g = .Promise p → ∃ a, p.get reg = some a) :
    g.resolved_artifact ctx reg = ((g.resolved reg).1, ctx, reg, 0) := by
  cases g with
  | Artifact a => rfl
  | TransitiveSetProjection k => rfl
  | Promise p =>
      obtain ⟨a, ha⟩ := h p rfl
      simp [ArtifactGroup.resolved_artifact, ArtifactGroup.resolved,
        PromiseArtifact.get_err, ha]

/-- C10 witness: on a concrete promise with a resolved cell, the async path
returns exactly the sync result with untouched engine and registry. -/
theorem sync_refines_async_witness :
    (ArtifactGroup.Promise ⟨1⟩).resolved_artifact
        ⟨fun _ => Except.error (.analysisFailure 0), []⟩ [(1, ⟨4⟩)] =
      (((ArtifactGroup.Promise ⟨1⟩).resolved [(1, ⟨4⟩)]).1,
        ⟨fun _ => Except.error (.analysisFailure 0), []⟩, [(1, ⟨4⟩)], 0) :=
  sync_refines_async (.Promise ⟨1⟩)
    ⟨fun _ => Except.error (.analysisFailure 0), []⟩ [(1, ⟨4⟩)]
    (fun p hp => ⟨⟨4⟩, by cases hp; rfl⟩)
